import Mathlib

/-!
Shallow embedding of `SentinelArray<T, N>` (src/src/SentinelArray.h), a
fixed-capacity array deriving from `std::array<T,N>` that adds a runtime
logical length (the private field `m_sentinel`).

Modelling conventions:
* the `std::array<T,N>` backing storage is a `List T`; that it physically has
  exactly N slots is stated as the hypothesis `data.length = N` where a claim
  needs it;
* `size_t` values are `Nat`;
* member functions become Lean functions on the structure;
* `assert` failures and `throw std::out_of_range` become `Except` errors;
* indeterminate (default-initialized) memory is passed in explicitly as a
  "junk" argument, since C++ leaves its contents unspecified;
* reading storage through `operator[]`/pointer dereference is `List.getD`
  with the `Inhabited` default standing in for whatever an out-of-range
  read would yield (claims only exercise in-range reads).
-/

/-- Error raised by the `assert(m_sentinel <= N)` checks in the
construction/assignment paths. -/
inductive CapacityError where
  | CapacityExceeded
deriving DecidableEq

/-- Payload of the `std::out_of_range` thrown by `at`: the message carries the
attempted position and the current sentinel (logical length). -/
structure IndexOutOfRange where
  pos : Nat
  sentinel : Nat
deriving DecidableEq

/-- The container state: the inherited `std::array<T,N>` storage plus the
private `m_sentinel` field. -/
structure SentinelArray (T : Type) (N : Nat) where
  data : List T
  m_sentinel : Nat
deriving DecidableEq

namespace SentinelArray

variable {T : Type} {N : Nat}

/-- The element-copy loop shared by both constructors and `operator=`:
`for (it = begin; it != end; ++it, ++i) this->data()[i] = *it;`
writing the elements of `init` into `data` starting at index `i`. -/
def copyLoop : List T → List T → Nat → List T
  | data, [], _ => data
  | data, x :: xs, i => copyLoop (data.set i x) xs (i + 1)

/-- `SentinelArray() = default;` — both the base `std::array` storage and
`m_sentinel` are default-initialized, i.e. their contents are indeterminate.
The indeterminate values are passed in explicitly. -/
def defaultCtor (junkData : List T) (junkSentinel : Nat) : SentinelArray T N :=
  ⟨junkData, junkSentinel⟩

/-- `SentinelArray(std::initializer_list<T> init)`: sets `m_sentinel` to
`init.size()`, asserts `m_sentinel <= N` (modelled as the error path), then
copies the elements into `data()[0..k)`. `junk` is the default-initialized
content of the inherited storage. -/
def fromInitList (junk init : List T) : Except CapacityError (SentinelArray T N) :=
  if init.length ≤ N then
    .ok ⟨copyLoop junk init 0, init.length⟩
  else
    .error .CapacityExceeded

/-- `SentinelArray(Iter begin, Iter end)` for random-access iterators: sets
`m_sentinel` to `std::distance(begin, end)` (the length of the range, modelled
as the list `rng` of elements between the two iterators), asserts
`m_sentinel <= N`, then copies. -/
def fromIterRange (junk rng : List T) : Except CapacityError (SentinelArray T N) :=
  if rng.length ≤ N then
    .ok ⟨copyLoop junk rng 0, rng.length⟩
  else
    .error .CapacityExceeded

/-- `operator=(std::initializer_list<T> init)`: sets `m_sentinel = init.size()`,
asserts `m_sentinel <= N` (the assertion aborts before any element is written,
so the error path yields no observable state), then copies into `data()[0..k)`
leaving the remaining slots as they were. -/
def assign (a : SentinelArray T N) (init : List T) :
    Except CapacityError (SentinelArray T N) :=
  if init.length ≤ N then
    .ok ⟨copyLoop a.data init 0, init.length⟩
  else
    .error .CapacityExceeded

/-- `size()`: returns `m_sentinel`. -/
def size (a : SentinelArray T N) : Nat :=
  a.m_sentinel

/-- `begin()` (inherited from `std::array`): pointer to slot 0, modelled as the
offset 0 from `data()`. -/
def beginIdx (_ : SentinelArray T N) : Nat :=
  0

/-- `end()`: `data() + m_sentinel`, modelled as the offset from `data()`. -/
def endIdx (a : SentinelArray T N) : Nat :=
  a.m_sentinel

/-- Range iteration from `begin()` to `end()` visits the slots at offsets
`[beginIdx, endIdx)`, i.e. the first `m_sentinel` stored elements. -/
def iterRange (a : SentinelArray T N) : List T :=
  a.data.take a.m_sentinel

/-- Inherited unchecked `operator[]`: `this->data()[pos]`, no bounds check. -/
def getUnchecked [Inhabited T] (a : SentinelArray T N) (pos : Nat) : T :=
  a.data.getD pos default

/-- `at(pos)`: `if (!(pos < m_sentinel)) throw std::out_of_range(...)` where the
message carries `pos` and `m_sentinel`; otherwise `return (*this)[pos];`. -/
def «at» [Inhabited T] (a : SentinelArray T N) (pos : Nat) :
    Except IndexOutOfRange T :=
  if ¬ (pos < a.m_sentinel) then
    .error ⟨pos, a.m_sentinel⟩
  else
    .ok (a.getUnchecked pos)

/-- `at(pos)` as a state transformer returning the post-state of the receiver:
the body reads `m_sentinel` and the storage but writes no member, so the
post-state is the unchanged receiver. -/
def atFull [Inhabited T] (a : SentinelArray T N) (pos : Nat) :
    Except IndexOutOfRange T × SentinelArray T N :=
  (a.at pos, a)

/-- `back()`: `return m_sentinel ? *(end() - 1) : *end();`. -/
def back [Inhabited T] (a : SentinelArray T N) : T :=
  if a.m_sentinel ≠ 0 then
    a.data.getD (a.m_sentinel - 1) default
  else
    a.data.getD a.m_sentinel default

/-- `setSentinel(s)`: `m_sentinel = s;` — unconditional, no assertion. -/
def setSentinel (a : SentinelArray T N) (s : Nat) : SentinelArray T N :=
  { a with m_sentinel := s }

/-- Mutating public operations, for reasoning about arbitrary call sequences. -/
inductive Op (T : Type) where
  | assignOp (init : List T)
  | setSentinelOp (s : Nat)

/-- Documented precondition of each mutating operation: sequences of length
`k ≤ N` for assignment, `s ≤ N` for `setSentinel`. -/
def Op.preOk (upper : Nat) : Op T → Bool
  | .assignOp init => decide (init.length ≤ upper)
  | .setSentinelOp s => decide (s ≤ upper)

/-- Run one mutating operation. -/
def runOp (a : SentinelArray T N) : Op T → Except CapacityError (SentinelArray T N)
  | .assignOp init => a.assign init
  | .setSentinelOp s => .ok (a.setSentinel s)

/-- Run a sequence of mutating operations, stopping at the first failure. -/
def runOps : SentinelArray T N → List (Op T) → Except CapacityError (SentinelArray T N)
  | a, [] => .ok a
  | a, op :: ops =>
    match runOp a op with
    | .ok b => runOps b ops
    | .error e => .error e

end SentinelArray

/-- A capacity-4 container holding logical elements 42 and 1337. -/
def ex2 : SentinelArray Nat 4 :=
  ⟨[42, 1337, 0, 0], 2⟩

/-- A capacity-4 container with logical length 0. -/
def ex0 : SentinelArray Nat 4 :=
  ⟨[0, 0, 0, 0], 0⟩

/- ------------------------------------------------------------------ -/
/- Helper lemmas about the copy loop.                                  -/
/- ------------------------------------------------------------------ -/

theorem set_at_append {T : Type} (pre : List T) (x s : T) (rest : List T) :
    (pre ++ s :: rest).set pre.length x = pre ++ x :: rest := by
  induction pre with
  | nil => rfl
  | cons p ps ih => simp [ih]

theorem copyLoop_append {T : Type} (init : List T) : ∀ (pre suf : List T),
    init.length ≤ suf.length →
    SentinelArray.copyLoop (pre ++ suf) init pre.length =
      pre ++ init ++ suf.drop init.length := by
  induction init with
  | nil => intro pre suf _; simp [SentinelArray.copyLoop]
  | cons x xs ih =>
    intro pre suf h
    match suf with
    | [] => simp at h
    | s :: srest =>
      have h2 : xs.length ≤ srest.length := by
        simpa using h
      have hstep := ih (pre ++ [x]) srest h2
      simp only [List.length_append, List.length_cons, List.length_nil] at hstep
      calc SentinelArray.copyLoop (pre ++ s :: srest) (x :: xs) pre.length
          = SentinelArray.copyLoop ((pre ++ s :: srest).set pre.length x) xs
              (pre.length + 1) := rfl
        _ = SentinelArray.copyLoop ((pre ++ [x]) ++ srest) xs (pre.length + 1) := by
              rw [set_at_append]; simp
        _ = (pre ++ [x]) ++ xs ++ srest.drop xs.length := by
              simpa using hstep
        _ = pre ++ (x :: xs) ++ (s :: srest).drop (x :: xs).length := by
              simp

theorem copyLoop_eq {T : Type} (init data : List T) (h : init.length ≤ data.length) :
    SentinelArray.copyLoop data init 0 = init ++ data.drop init.length := by
  simpa using copyLoop_append init [] data h

/- ------------------------------------------------------------------ -/
/- Claims.                                                             -/
/- ------------------------------------------------------------------ -/

/-- C1: for every capacity N and every sequence of length k ≤ N, both the
initializer-list constructor and the random-access iterator-pair constructor
succeed, set `size()` to k, and copy the k elements in order into slots
`[0,k)`, so that iterating `begin()`..`end()` yields exactly those k elements
in order. -/
theorem C1_construct_from_sequence {T : Type} {N : Nat}
    (junk init rng : List T) (hj : junk.length = N)
    (hk : init.length ≤ N) (hr : rng.length ≤ N) :
    (∃ a : SentinelArray T N, SentinelArray.fromInitList junk init = Except.ok a ∧
        a.size = init.length ∧ a.iterRange = init) ∧
    (∃ b : SentinelArray T N, SentinelArray.fromIterRange junk rng = Except.ok b ∧
        b.size = rng.length ∧ b.iterRange = rng) := by
  constructor
  · refine ⟨⟨SentinelArray.copyLoop junk init 0, init.length⟩, ?_, rfl, ?_⟩
    · simp [SentinelArray.fromInitList, hk]
    · show (SentinelArray.copyLoop junk init 0).take init.length = init
      rw [copyLoop_eq init junk (by omega)]
      exact List.take_left _ _
  · refine ⟨⟨SentinelArray.copyLoop junk rng 0, rng.length⟩, ?_, rfl, ?_⟩
    · simp [SentinelArray.fromIterRange, hr]
    · show (SentinelArray.copyLoop junk rng 0).take rng.length = rng
      rw [copyLoop_eq rng junk (by omega)]
      exact List.take_left _ _

/-- C1 witness: capacity 4, constructing from `{42, 1337}` and from a
3-element iterator range. -/
theorem C1_construct_from_sequence_witness :
    (∃ a : SentinelArray Nat 4,
        SentinelArray.fromInitList [0, 0, 0, 0] [42, 1337] = Except.ok a ∧
        a.size = [42, 1337].length ∧ a.iterRange = [42, 1337]) ∧
    (∃ b : SentinelArray Nat 4,
        SentinelArray.fromIterRange [0, 0, 0, 0] [5, 6, 7] = Except.ok b ∧
        b.size = [5, 6, 7].length ∧ b.iterRange = [5, 6, 7]) :=
  C1_construct_from_sequence [0, 0, 0, 0] [42, 1337] [5, 6, 7]
    (by decide) (by decide) (by decide)

/-- C2: `at(pos)` fails exactly when `pos ≥ m_sentinel` (the check is against
the logical length, not the capacity N), the raised error carries the
attempted position and the current logical length, and for `pos < m_sentinel`
it returns the same value as unchecked `operator[]`. -/
theorem C2_at_bounds_check {T : Type} {N : Nat} [Inhabited T]
    (a : SentinelArray T N) (pos : Nat) :
    ((∃ e, a.at pos = Except.error e) ↔ a.m_sentinel ≤ pos) ∧
    (a.m_sentinel ≤ pos → a.at pos = Except.error ⟨pos, a.m_sentinel⟩) ∧
    (pos < a.m_sentinel → a.at pos = Except.ok (a.getUnchecked pos)) := by
  by_cases h : pos < a.m_sentinel
  · have hat : a.at pos = Except.ok (a.getUnchecked pos) := by
      simp [SentinelArray.«at», h]
    refine ⟨?_, ?_, fun _ => hat⟩
    · rw [hat]
      constructor
      · rintro ⟨e, he⟩
        cases he
      · intro hle
        omega
    · intro hle
      omega
  · have hat : a.at pos = Except.error ⟨pos, a.m_sentinel⟩ := by
      simp [SentinelArray.«at», h]
    refine ⟨?_, fun _ => hat, fun hlt => absurd hlt h⟩
    rw [hat]
    constructor
    · intro _
      omega
    · intro _
      exact ⟨_, rfl⟩

/-- C2 witness: on a length-2 container, `at 5` fails carrying (5, 2) and
`at 1` agrees with unchecked indexing. -/
theorem C2_at_bounds_check_witness :
    SentinelArray.«at» ex2 5 = Except.error ⟨5, 2⟩ ∧
    SentinelArray.«at» ex2 1 = Except.ok (ex2.getUnchecked 1) :=
  ⟨(C2_at_bounds_check ex2 5).2.1 (by decide),
   (C2_at_bounds_check ex2 1).2.2 (by decide)⟩

/-- C3: for every sequence of length k > N, constructing from it (either
constructor) or assigning it to an existing container fails with
`CapacityExceeded`. -/
theorem C3_capacity_exceeded {T : Type} {N : Nat}
    (junk init : List T) (a : SentinelArray T N) (hk : N < init.length) :
    SentinelArray.fromInitList (T := T) (N := N) junk init =
      Except.error CapacityError.CapacityExceeded ∧
    SentinelArray.fromIterRange (T := T) (N := N) junk init =
      Except.error CapacityError.CapacityExceeded ∧
    a.assign init = Except.error CapacityError.CapacityExceeded := by
  have h : ¬ (init.length ≤ N) := by omega
  exact ⟨by simp [SentinelArray.fromInitList, h],
         by simp [SentinelArray.fromIterRange, h],
         by simp [SentinelArray.assign, h]⟩

/-- C3 witness: a 5-element sequence into capacity 4 fails everywhere. -/
theorem C3_capacity_exceeded_witness :
    SentinelArray.fromInitList (T := Nat) (N := 4) [0, 0, 0, 0] [1, 2, 3, 4, 5] =
      Except.error CapacityError.CapacityExceeded ∧
    SentinelArray.fromIterRange (T := Nat) (N := 4) [0, 0, 0, 0] [1, 2, 3, 4, 5] =
      Except.error CapacityError.CapacityExceeded ∧
    ex2.assign [1, 2, 3, 4, 5] = Except.error CapacityError.CapacityExceeded :=
  C3_capacity_exceeded [0, 0, 0, 0] [1, 2, 3, 4, 5] ex2 (by decide)

/-- C4 (code bug): `SentinelArray() = default;` leaves `m_sentinel`
default-initialized, i.e. indeterminate — the member declaration
`size_type m_sentinel;` has no initializer. When the indeterminate memory
happens to hold 1, `size()` returns 1 (not 0) and `begin()` differs from
`end()`, contradicting the claimed `size() == 0` after default construction. -/
theorem C4_default_ctor_garbage :
    (SentinelArray.defaultCtor (N := 4) [0, 0, 0, 0] 1).size = 1 ∧
    ¬ ((SentinelArray.defaultCtor (N := 4) [0, 0, 0, 0] 1).size = 0) ∧
    ¬ (SentinelArray.beginIdx (SentinelArray.defaultCtor (N := 4) [0, 0, 0, 0] 1) =
        SentinelArray.endIdx (SentinelArray.defaultCtor (N := 4) [0, 0, 0, 0] 1)) := by
  refine ⟨rfl, ?_, ?_⟩ <;> decide

/-- C5: starting from any container with `m_sentinel ≤ N`, every sequence of
mutating public operations each used within its documented precondition
(assignment from sequences of length k ≤ N, `setSentinel` with s ≤ N)
succeeds and maintains `0 ≤ m_sentinel ≤ N`; moreover `setSentinel` stores its
argument verbatim — no operation silently clamps an out-of-range length. -/
theorem C5_length_invariant {T : Type} {N : Nat}
    (a : SentinelArray T N) (ops : List (SentinelArray.Op T))
    (ha : a.m_sentinel ≤ N)
    (hops : ∀ op ∈ ops, op.preOk N = true) :
    (∃ b, SentinelArray.runOps a ops = Except.ok b ∧ b.m_sentinel ≤ N) ∧
    (∀ (c : SentinelArray T N) (s : Nat), (c.setSentinel s).m_sentinel = s) := by
  refine ⟨?_, fun c s => rfl⟩
  induction ops generalizing a with
  | nil => exact ⟨a, rfl, ha⟩
  | cons op ops ih =>
    cases op with
    | assignOp init =>
      have hpre : init.length ≤ N := by
        simpa [SentinelArray.Op.preOk] using hops _ (List.mem_cons_self _ _)
      have hstep : SentinelArray.runOps a (SentinelArray.Op.assignOp init :: ops) =
          SentinelArray.runOps
            (⟨SentinelArray.copyLoop a.data init 0, init.length⟩ : SentinelArray T N)
            ops := by
        simp [SentinelArray.runOps, SentinelArray.runOp, SentinelArray.assign, hpre]
      rw [hstep]
      exact ih _ hpre
        (fun o ho => hops o (List.mem_cons_of_mem _ ho))
    | setSentinelOp s =>
      have hpre : s ≤ N := by
        simpa [SentinelArray.Op.preOk] using hops _ (List.mem_cons_self _ _)
      have hstep : SentinelArray.runOps a (SentinelArray.Op.setSentinelOp s :: ops) =
          SentinelArray.runOps (a.setSentinel s) ops := by
        simp [SentinelArray.runOps, SentinelArray.runOp]
      rw [hstep]
      exact ih _ hpre
        (fun o ho => hops o (List.mem_cons_of_mem _ ho))

/-- C5 witness: an in-precondition assignment followed by an in-precondition
`setSentinel` keeps the length within `[0, 4]`. -/
theorem C5_length_invariant_witness :
    ∃ b, SentinelArray.runOps ex2
        [SentinelArray.Op.assignOp [7, 8, 9], SentinelArray.Op.setSentinelOp 1] =
      Except.ok b ∧ b.m_sentinel ≤ 4 :=
  (C5_length_invariant ex2
    [SentinelArray.Op.assignOp [7, 8, 9], SentinelArray.Op.setSentinelOp 1]
    (by decide) (by decide)).1

/-- C6: for every container and every s ≤ N, `setSentinel s` changes `size()`
to s and leaves every storage slot unchanged, in particular the slots in
`[0, min(old length, s))`. -/
theorem C6_setSentinel_preserves_data {T : Type} {N : Nat}
    (a : SentinelArray T N) (s : Nat) (_hs : s ≤ N) :
    (a.setSentinel s).size = s ∧
    (a.setSentinel s).data = a.data ∧
    (a.setSentinel s).data.take (min a.m_sentinel s) =
      a.data.take (min a.m_sentinel s) :=
  ⟨rfl, rfl, rfl⟩

/-- C6 witness: shrinking the length-2 container to length 1. -/
theorem C6_setSentinel_preserves_data_witness :
    (ex2.setSentinel 1).size = 1 ∧
    (ex2.setSentinel 1).data = ex2.data ∧
    (ex2.setSentinel 1).data.take (min ex2.m_sentinel 1) =
      ex2.data.take (min ex2.m_sentinel 1) :=
  C6_setSentinel_preserves_data ex2 1 (by decide)

/-- C7: assigning a sequence of length k ≤ N to an existing container (whose
storage physically has N slots) succeeds, overwrites slots `[0,k)` with the
sequence in order, sets the logical length to k, and leaves every slot in
`[k, N)` holding exactly the value it held before. -/
theorem C7_assign_overwrites_and_frames {T : Type} {N : Nat}
    (a : SentinelArray T N) (init : List T)
    (hd : a.data.length = N) (hk : init.length ≤ N) :
    ∃ b, a.assign init = Except.ok b ∧ b.m_sentinel = init.length ∧
      b.data.take init.length = init ∧
      b.data.drop init.length = a.data.drop init.length := by
  refine ⟨⟨SentinelArray.copyLoop a.data init 0, init.length⟩, ?_, rfl, ?_, ?_⟩
  · simp [SentinelArray.assign, hk]
  · show (SentinelArray.copyLoop a.data init 0).take init.length = init
    rw [copyLoop_eq init a.data (by omega)]
    exact List.take_left _ _
  · show (SentinelArray.copyLoop a.data init 0).drop init.length =
      a.data.drop init.length
    rw [copyLoop_eq init a.data (by omega)]
    exact List.drop_left _ _

/-- C7 witness: assigning `{9}` to the length-2 container keeps its tail. -/
theorem C7_assign_overwrites_and_frames_witness :
    ∃ b, ex2.assign [9] = Except.ok b ∧ b.m_sentinel = [9].length ∧
      b.data.take [9].length = [9] ∧
      b.data.drop [9].length = ex2.data.drop [9].length :=
  C7_assign_overwrites_and_frames ex2 [9] (by decide) (by decide)

/-- C8: `back()` returns the value of slot `m_sentinel - 1` when the logical
length is positive; when it is 0 it does not fail but dereferences `end()`
itself, i.e. returns the value of slot 0. -/
theorem C8_back_no_failure {T : Type} {N : Nat} [Inhabited T]
    (a : SentinelArray T N) :
    (0 < a.m_sentinel → a.back = a.data.getD (a.m_sentinel - 1) default) ∧
    (a.m_sentinel = 0 → a.back = a.data.getD 0 default) := by
  constructor
  · intro h
    have hne : a.m_sentinel ≠ 0 := by omega
    simp [SentinelArray.back, hne]
  · intro h
    simp [SentinelArray.back, h]

/-- C8 witness: `back` on the length-2 container reads slot 1; `back` on the
empty container reads slot 0 without failing. -/
theorem C8_back_no_failure_witness :
    ex2.back = ex2.data.getD (ex2.m_sentinel - 1) default ∧
    ex0.back = ex0.data.getD 0 default :=
  ⟨(C8_back_no_failure ex2).1 (by decide),
   (C8_back_no_failure ex0).2 (by decide)⟩

/-- C9 counterexample: `setSentinel` contains no assertion at all — calling it
with 5 on a capacity-4 container completes normally and stores the
out-of-range value 5, so the out-of-range argument is accepted without any
check, contradicting the claim that it is rejected by an assertion check. -/
theorem C9_setSentinel_not_checked_counterexample :
    (ex2.setSentinel 5).m_sentinel = 5 ∧ ¬ ((5 : Nat) ≤ 4) ∧
    (ex2.setSentinel 5).data = ex2.data := by
  refine ⟨rfl, by decide, rfl⟩

/-- C9 amended: `setSentinel s` stores s unconditionally — there is no
assertion check on s, even for s > N; the out-of-range value is accepted
unchecked (callers bear full responsibility). -/
theorem C9_setSentinel_unconditional {T : Type} {N : Nat}
    (a : SentinelArray T N) (s : Nat) :
    (a.setSentinel s).m_sentinel = s :=
  rfl

/-- C10: `at(pos)` never mutates the container: whatever the outcome (error or
value), the post-state has the same logical length and the same storage
contents as the pre-state, and the outcome is either the out-of-range error
carrying (pos, length) or some value. -/
theorem C10_at_no_mutation {T : Type} {N : Nat} [Inhabited T]
    (a : SentinelArray T N) (pos : Nat) :
    (a.atFull pos).2.m_sentinel = a.m_sentinel ∧
    (a.atFull pos).2.data = a.data ∧
    ((a.atFull pos).1 = Except.error ⟨pos, a.m_sentinel⟩ ∨
      ∃ v, (a.atFull pos).1 = Except.ok v) := by
  refine ⟨rfl, rfl, ?_⟩
  by_cases h : pos < a.m_sentinel
  · refine Or.inr ⟨a.getUnchecked pos, ?_⟩
    simp [SentinelArray.atFull, SentinelArray.«at», h]
  · refine Or.inl ?_
    simp [SentinelArray.atFull, SentinelArray.«at», h]
